import Mathlib

/-!
Shallow embedding of the i8042 PS/2 driver (src/i8042_driver.c).

The driver has two parts:
* the interrupt handler i8042_handler, which decodes scancodes arriving on the
  keyboard interrupt line (irq 1) through three index-aligned 85-entry tables
  (press_scancodes / release_scancodes / keys) and, for bytes prefixed by the
  escape marker 0xE0, through three 15-entry tables
  (esc_press_scancodes / esc_release_scancodes / esc_keys);
* init_module, the bring-up sequence: disable ports, flush, configure, self
  test, dual-channel probe, interface test, enable, device reset, device
  identification and input-device registration with goto-based unwinding.

Hardware and kernel interaction is modelled by an explicit state St carrying
the pending outcomes of data-register reads (read_reg) and of the polled
device writes (write_dev1 / write_dev2), together with a trace of observable
actions (register writes, resource acquisitions and releases).  Bytes are
natural numbers; the environment supplies them, exactly as inb does.
-/

set_option maxRecDepth 4096
set_option linter.unusedVariables false

namespace I8042

/-- Device classification constants from the source (UNDEFINED / KEYBOARD / MOUSE). -/
def UNDEFINED : Nat := 0

/-- KEYBOARD device class. -/
def KEYBOARD : Nat := 1

/-- MOUSE device class. -/
def MOUSE : Nat := 2

/-- One-byte press scancode table, 85 entries (src lines 80-87). -/
def press_scancodes : List Nat :=
  [      0x01, 0x02, 0x03, 0x04, 0x05, 0x06, 0x07, 0x08, 0x09, 0x0A, 0x0B, 0x0C, 0x0D, 0x0E, 0x0F,
   0x10, 0x11, 0x12, 0x13, 0x14, 0x15, 0x16, 0x17, 0x18, 0x19, 0x1A, 0x1B, 0x1C, 0x1D, 0x1E, 0x1F,
   0x20, 0x21, 0x22, 0x23, 0x24, 0x25, 0x26, 0x27, 0x28, 0x29, 0x2A, 0x2B, 0x2C, 0x2D, 0x2E, 0x2F,
   0x30, 0x31, 0x32, 0x33, 0x34, 0x35, 0x36, 0x37, 0x38, 0x39, 0x3A, 0x3B, 0x3C, 0x3D, 0x3E, 0x3F,
   0x40, 0x41, 0x42, 0x43, 0x44, 0x45, 0x46, 0x47, 0x48, 0x49, 0x4A, 0x4B, 0x4C, 0x4D, 0x4E, 0x4F,
   0x50, 0x51, 0x52, 0x53,                   0x57, 0x58]

/-- One-byte release scancode table, 85 entries (src lines 88-95). -/
def release_scancodes : List Nat :=
  [      0x81, 0x82, 0x83, 0x84, 0x85, 0x86, 0x87, 0x88, 0x89, 0x8A, 0x8B, 0x8C, 0x8D, 0x8E, 0x8F,
   0x90, 0x91, 0x92, 0x93, 0x94, 0x95, 0x96, 0x97, 0x98, 0x99, 0x9A, 0x9B, 0x9C, 0x9D, 0x9E, 0x9F,
   0xA0, 0xA1, 0xA2, 0xA3, 0xA4, 0xA5, 0xA6, 0xA7, 0xA8, 0xA9, 0xAA, 0xAB, 0xAC, 0xAD, 0xAE, 0xAF,
   0xB0, 0xB1, 0xB2, 0xB3, 0xB4, 0xB5, 0xB6, 0xB7, 0xB8, 0xB9, 0xBA, 0xBB, 0xBC, 0xBD, 0xBE, 0xBF,
   0xC0, 0xC1, 0xC2, 0xC3, 0xC4, 0xC5, 0xC6, 0xC7, 0xC8, 0xC9, 0xCA, 0xCB, 0xCC, 0xCD, 0xCE, 0xCF,
   0xD0, 0xD1, 0xD2, 0xD3,                   0xD7, 0xD8]

/-- Key-identity table, 85 entries (src lines 96-103); numeric values of the
KEY_* constants from the Linux uapi input-event-codes header, which the source
includes via linux/input.h. -/
def keys : List Nat :=
  [    1,  2,  3,  4,  5,  6,  7,  8,  9, 10, 11, 12, 13, 14, 15,
   16, 17, 18, 19, 20, 21, 22, 23, 24, 25, 26, 27, 28, 29, 30, 31,
   32, 33, 34, 35, 36, 37, 38, 39, 40, 41, 42, 43, 44, 45, 46, 47,
   48, 49, 50, 51, 52, 53, 54, 55, 56, 57, 58, 59, 60, 61, 62, 63,
   64, 65, 66, 67, 68, 69, 70, 71, 72, 73, 74, 75, 76, 77, 78, 79,
   80, 81, 82, 83,         87, 88]

/-- Escaped (0xE0-prefixed) press scancode table, 15 entries (src line 105). -/
def esc_press_scancodes : List Nat :=
  [0x1C, 0x1D, 0x2A, 0x36, 0x38, 0x47, 0x48, 0x49, 0x4B, 0x4D, 0x4F, 0x50, 0x51, 0x52, 0x53]

/-- Escaped release scancode table, 15 entries (src line 106). -/
def esc_release_scancodes : List Nat :=
  [0x9C, 0x9D, 0xAA, 0xB6, 0xB8, 0xC7, 0xC8, 0xC9, 0xCB, 0xCD, 0xCF, 0xD0, 0xD1, 0xD2, 0xD3]

/-- Escaped key-identity table, 15 entries (src lines 107-108): KEY_KPENTER,
KEY_RIGHTCTRL, KEY_LEFTSHIFT, KEY_RIGHTSHIFT, KEY_RIGHTALT, KEY_HOME, KEY_UP,
KEY_PAGEUP, KEY_LEFT, KEY_RIGHT, KEY_END, KEY_DOWN, KEY_PAGEDOWN, KEY_INSERT,
KEY_DELETE. -/
def esc_keys : List Nat :=
  [96, 97, 42, 54, 100, 102, 103, 104, 105, 106, 107, 108, 109, 110, 111]

/-- The table scan of i8042_handler (src lines 119-127 and 130-138): walk the
three index-aligned tables in step (the C loop runs the index over 0..84,
resp. 0..14, which is exactly the length of each array); first match wins; a
press match at index i emits (key[i], pressed), a release match emits
(key[i], released); no match emits nothing.  An event is a pair
(key identity, pressed?). -/
def scanTables : List Nat → List Nat → List Nat → Nat → List (Nat × Bool)
  | p :: ps, r :: rs, k :: ks, scancode =>
    if scancode = p then [(k, true)]
    else if scancode = r then [(k, false)]
    else scanTables ps rs ks scancode
  | _, _, _, _ => []

/-- The one-byte table scan (loop bound 85 = table length). -/
def scanLoop (scancode : Nat) : List (Nat × Bool) :=
  scanTables press_scancodes release_scancodes keys scancode

/-- The escaped-table scan (loop bound 15 = table length). -/
def escScanLoop (scancode : Nat) : List (Nat × Bool) :=
  scanTables esc_press_scancodes esc_release_scancodes esc_keys scancode

/-- Per-byte view of the keyboard branch of i8042_handler (src lines 116-139).
The handler reads one byte; if it is not the escape marker 0xE0 it is matched
against the one-byte tables, otherwise the handler immediately reads the next
byte and matches it against the escaped tables only.  The escape-pending flag
is the program point between those two reads: i8042_step escapePending b
returns the events emitted for b together with the new escape-pending flag.
The correspondence with the handler is i8042_handler_events. -/
def i8042_step (escapePending : Bool) (scancode : Nat) : List (Nat × Bool) × Bool :=
  if escapePending then (escScanLoop scancode, false)
  else if scancode = 0xE0 then ([], true)
  else (scanLoop scancode, false)

/-- Result of one interrupt-handler invocation: the key events reported to the
input device (in order) and the number of input_sync calls on it. -/
structure HandlerOut where
  events : List (Nat × Bool)
  syncs : Nat
  deriving DecidableEq, Repr

/-- One invocation of i8042_handler (src lines 110-148).  irq is the interrupt
line, dev identifies the input device passed as dev_data (the handler never
branches on it), and data lists the bytes the data register yields to
successive inb calls during this invocation.  On irq 1 a leading 0xE0 makes
the handler read a second byte and match it against the escaped tables; on
irq 12 the mouse branch is empty.  input_sync runs exactly once at the end. -/
def i8042_handler (irq : Nat) (dev : Nat) (data : List Nat) : HandlerOut :=
  let scancode := data.headD 0
  if irq = 1 then
    if scancode ≠ 0xE0 then ⟨scanLoop scancode, 1⟩
    else ⟨escScanLoop ((data.drop 1).headD 0), 1⟩
  else if irq = 12 then ⟨[], 1⟩
  else ⟨[], 1⟩

/-- The per-byte step function computes exactly the events of a handler
invocation: a non-escape first byte goes through the one-byte tables, and after
an escape marker the next byte goes through the escaped tables. -/
theorem i8042_handler_events (dev b : Nat) (rest : List Nat) :
    (i8042_handler 1 dev (b :: rest)).events =
      (if b = 0xE0 then (i8042_step true (rest.headD 0)).1 else (i8042_step false b).1) := by
  by_cases hb : b = 0xE0 <;> simp [i8042_handler, i8042_step, hb]

/-- A byte occurring in neither the press column nor the release column of a
table triple is scanned past every row without a match. -/
theorem scanTables_eq_nil (b : Nat) :
    ∀ (ps rs ks : List Nat), b ∉ ps → b ∉ rs → scanTables ps rs ks b = [] := by
  intro ps
  induction ps with
  | nil => intro rs ks _ _; cases rs <;> cases ks <;> rfl
  | cons p ps ih =>
    intro rs ks hp hr
    cases rs with
    | nil => cases ks <;> rfl
    | cons r rs =>
      cases ks with
      | nil => rfl
      | cons k ks =>
        simp only [List.mem_cons, not_or] at hp hr
        simp [scanTables, hp.1, hr.1, ih rs ks hp.2 hr.2]

/-- C1: for every index i of the one-byte scancode tables, decoding
press_scancodes[i] on the keyboard port with no escape pending emits exactly
the one event (keys[i], pressed) and leaves escape-pending false, and decoding
release_scancodes[i] emits exactly (keys[i], released). -/
theorem C1_one_byte_decoding (i : Nat) (h : i < 85) :
    i8042_step false (press_scancodes.getD i 0) = ([(keys.getD i 0, true)], false) ∧
    i8042_step false (release_scancodes.getD i 0) = ([(keys.getD i 0, false)], false) := by
  revert i
  decide

/-- Witness for C1 at index 0. -/
theorem C1_one_byte_decoding_witness : (0 : Nat) < 85 ∧
    (i8042_step false (press_scancodes.getD 0 0) = ([(keys.getD 0 0, true)], false) ∧
     i8042_step false (release_scancodes.getD 0 0) = ([(keys.getD 0 0, false)], false)) :=
  ⟨by decide, C1_one_byte_decoding 0 (by decide)⟩

/-- C2: receiving 0xE0 with no escape pending emits nothing and sets
escape-pending; the following byte is matched only against the escaped tables,
emitting (esc_keys[i], pressed) for esc_press_scancodes[i] and
(esc_keys[i], released) for esc_release_scancodes[i] — even though every one of
those bytes also occurs in the one-byte tables (fourth and fifth conjuncts);
the final conjunct checks the two-byte sequence through the handler itself. -/
theorem C2_escape_decoding (i : Nat) (h : i < 15) :
    i8042_step false 0xE0 = ([], true) ∧
    i8042_step true (esc_press_scancodes.getD i 0) = ([(esc_keys.getD i 0, true)], false) ∧
    i8042_step true (esc_release_scancodes.getD i 0) = ([(esc_keys.getD i 0, false)], false) ∧
    esc_press_scancodes.getD i 0 ∈ press_scancodes ∧
    esc_release_scancodes.getD i 0 ∈ release_scancodes ∧
    (i8042_handler 1 0 [0xE0, esc_press_scancodes.getD i 0]).events =
      [(esc_keys.getD i 0, true)] := by
  refine ⟨?_, ?_, ?_, ?_, ?_, ?_⟩ <;> revert i <;> decide

/-- Witness for C2 at index 0. -/
theorem C2_escape_decoding_witness : (0 : Nat) < 15 ∧
    i8042_step false 0xE0 = ([], true) ∧
    i8042_step true (esc_press_scancodes.getD 0 0) = ([(esc_keys.getD 0 0, true)], false) :=
  ⟨by decide, (C2_escape_decoding 0 (by decide)).1, (C2_escape_decoding 0 (by decide)).2.1⟩

/-- C9: a byte matching no entry of the applicable table emits no event (and
the decoder has no error path: the step function is total and returns only an
event list and the next escape flag), and every handler invocation — whatever
the irq line and whether zero or one event was emitted — performs exactly one
input_sync (frame complete) on the device of the port. -/
theorem C9_unmatched_silent_and_sync :
    (∀ b : Nat, b ≠ 0xE0 → b ∉ press_scancodes → b ∉ release_scancodes →
      i8042_step false b = ([], false)) ∧
    (∀ b : Nat, b ∉ esc_press_scancodes → b ∉ esc_release_scancodes →
      i8042_step true b = ([], false)) ∧
    (∀ irq dev data, (i8042_handler irq dev data).syncs = 1) := by
  refine ⟨?_, ?_, ?_⟩
  · intro b hne hp hr
    simp [i8042_step, hne, scanLoop,
      scanTables_eq_nil b press_scancodes release_scancodes keys hp hr]
  · intro b hp hr
    simp [i8042_step, escScanLoop,
      scanTables_eq_nil b esc_press_scancodes esc_release_scancodes esc_keys hp hr]
  · intro irq dev data
    cases data with
    | nil =>
      by_cases h1 : irq = 1 <;> by_cases h2 : irq = 12 <;>
        simp [i8042_handler, h1, h2]
    | cons b rest =>
      by_cases h1 : irq = 1 <;> by_cases h2 : irq = 12 <;> by_cases h3 : b = 0xE0 <;>
        simp [i8042_handler, h1, h2, h3]

/-- Witness for C9: 0x54 is in neither one-byte table, 0x1B is in neither
escaped table, and an irq-12 invocation still syncs once. -/
theorem C9_unmatched_silent_and_sync_witness :
    ((0x54 : Nat) ≠ 0xE0 ∧ (0x54 : Nat) ∉ press_scancodes ∧
      (0x54 : Nat) ∉ release_scancodes) ∧
    i8042_step false 0x54 = ([], false) ∧
    i8042_step true 0x1B = ([], false) ∧
    (i8042_handler 12 0 [0x37]).syncs = 1 :=
  ⟨by decide,
   C9_unmatched_silent_and_sync.1 0x54 (by decide) (by decide) (by decide),
   C9_unmatched_silent_and_sync.2.1 0x1B (by decide) (by decide),
   C9_unmatched_silent_and_sync.2.2 12 0 [0x37]⟩

/-- C10: any byte arriving on interrupt line 12 produces no key event whatever
device is attached (the mouse branch of the handler is empty): the invocation
reports no events and only the frame-complete sync; and on any line other
than 1 the handler emits no events, so scancode decoding happens solely for
bytes delivered on line 1. -/
theorem C10_irq12_no_events :
    (∀ dev data, i8042_handler 12 dev data = ⟨[], 1⟩) ∧
    (∀ irq dev data, irq = 1 ∨ i8042_handler irq dev data = ⟨[], 1⟩) := by
  constructor
  · intro dev data
    rfl
  · intro irq dev data
    by_cases h1 : irq = 1
    · exact Or.inl h1
    · refine Or.inr ?_
      by_cases h2 : irq = 12 <;> simp [i8042_handler, h1, h2]

/-! ## Bring-up (init_module) -/

/-- Error numbers used by init_module (Linux errno values; returned negated). -/
def ETIME : Int := 62

/-- EINVAL errno. -/
def EINVAL : Int := 22

/-- ENOMEM errno. -/
def ENOMEM : Int := 12

/-- EBUSY errno. -/
def EBUSY : Int := 16

/-- Observable actions of the bring-up sequence, in program order: outb to the
command register (0x64), outb to the data register (0x60) from init_module
itself, a successfully completed polled write to the device on port 1 or
port 2, and the resource acquisitions and releases of the registration step
(input_allocate_device / input_register_device / request_irq and the matching
input_free_device / input_unregister_device / free_irq calls). -/
inductive Act where
  | cmd (b : Nat)
  | data (b : Nat)
  | wdev1 (b : Nat)
  | wdev2 (b : Nat)
  | allocDev1
  | regDev1
  | reqIrq1
  | allocDev2
  | regDev2
  | reqIrq12
  | freeDev1
  | unregDev1
  | freeIrq1
  | freeDev2
  | unregDev2
  | freeIrq12
  deriving DecidableEq, Repr

/-- Bring-up state: the pending outcomes the hardware will hand to successive
read_reg calls (none = the 250 ms poll of status bit 0 times out), the
outcomes of successive polled write_dev1 / write_dev2 calls (false = the poll
of status bit 1 times out), the first_port and second_port globals, and the
trace of actions performed so far. -/
structure St where
  reads : List (Option Nat)
  writes1 : List Bool
  writes2 : List Bool
  fp : Nat
  sp : Nat
  trace : List Act
  deriving DecidableEq, Repr

/-- Append one action to the trace. -/
def pushT (a : Act) (s : St) : St := { s with trace := s.trace ++ [a] }

/-- outb to the command register. -/
def outbCmd (b : Nat) (s : St) : St := pushT (Act.cmd b) s

/-- outb to the data register from init_module. -/
def outbData (b : Nat) (s : St) : St := pushT (Act.data b) s

/-- read_reg (src lines 151-165): poll status bit 0 up to the deadline; on
success consume and return the next byte from the data register, otherwise
report a timeout.  The list of pending outcomes in the environment supplies the
result; an exhausted list behaves as a timeout. -/
def read_reg (s : St) : Option Nat × St :=
  match s.reads with
  | [] => (none, s)
  | r :: rest => (r, { s with reads := rest })

/-- write_dev1 (src lines 168-182): poll status bit 1 up to the deadline; on
success write the byte to the data register (recorded as Act.wdev1), otherwise
time out without writing. -/
def write_dev1 (b : Nat) (s : St) : Bool × St :=
  match s.writes1 with
  | [] => (false, s)
  | ok :: rest =>
    let s := { s with writes1 := rest }
    if ok then (true, pushT (Act.wdev1 b) s) else (false, s)

/-- write_dev2 (src lines 185-200): first unconditionally issue the 0xD4
(write second PS/2 input buffer) command, then poll status bit 1 and on
success write the byte (recorded as Act.wdev2), otherwise time out. -/
def write_dev2 (b : Nat) (s : St) : Bool × St :=
  let s := outbCmd 0xD4 s
  match s.writes2 with
  | [] => (false, s)
  | ok :: rest =>
    let s := { s with writes2 := rest }
    if ok then (true, pushT (Act.wdev2 b) s) else (false, s)

/-- Models the kernel helper that sets bit k of a byte value. -/
def setBit (k n : Nat) : Nat := if n.testBit k then n else n + 2 ^ k

/-- Models the kernel helper that clears bit k of a byte value. -/
def clearBit (k n : Nat) : Nat := if n.testBit k then n - 2 ^ k else n

/-- Flush step (src lines 211-216): issue read-config-byte (0x20) and discard
one byte; a timeout is fatal (-ETIME). -/
def flush_phase (s : St) : Except (Int × St) St :=
  let s := outbCmd 0x20 s
  match read_reg s with
  | (none, s) => .error (-ETIME, s)
  | (some _, s) => .ok s

/-- Config step (src lines 218-233), exactly as written: issue 0x20 and read
the config byte; clear bits 0, 1 and 6; write the result to the DATA register;
then read another byte into the same variable — overwriting the config byte —
then issue the 0x60 (write config byte) command; finally record
dual_channel_test as bit 5 of the byte obtained by that second read.  Any read
timeout is fatal (-ETIME).  Returns (dual_channel_test, state). -/
def config_phase (s : St) : Except (Int × St) (Nat × St) :=
  let s := outbCmd 0x20 s
  match read_reg s with
  | (none, s) => .error (-ETIME, s)
  | (some byte, s) =>
    let byte := clearBit 6 (clearBit 1 (clearBit 0 byte))
    let s := outbData byte s
    match read_reg s with
    | (none, s) => .error (-ETIME, s)
    | (some byte, s) =>
      let s := outbCmd 0x60 s
      let dual := if byte.testBit 5 then 1 else 0
      .ok (dual, s)

/-- Self-test step (src lines 235-246): issue 0xAA; the response must be 0x55,
else bring-up fails with -EINVAL; a read timeout is fatal (-ETIME). -/
def self_test_phase (s : St) : Except (Int × St) St :=
  let s := outbCmd 0xAA s
  match read_reg s with
  | (none, s) => .error (-ETIME, s)
  | (some byte, s) =>
    if byte = 0x55 then .ok s else .error (-EINVAL, s)

/-- Dual-channel determination (src lines 248-264): only when the candidate
flag is set, enable the second port (0xA8), re-read the config byte, decide
dual-channel support from bit 5 (still set means unsupported), and disable the
second port again (0xA7). -/
def dual_detect_phase (dual : Nat) (s : St) : Except (Int × St) (Nat × St) :=
  if dual ≠ 0 then
    let s := outbCmd 0xA8 s
    let s := outbCmd 0x20 s
    match read_reg s with
    | (none, s) => .error (-ETIME, s)
    | (some byte, s) =>
      let d := if byte.testBit 5 then 0 else 1
      .ok (d, outbCmd 0xA7 s)
  else .ok (dual, s)

/-- Interface test (src lines 266-293): test port 1 (0xAB); response 0x00
marks first_port usable, any other response leaves it disabled without
aborting; when dual-channel is supported, test port 2 likewise (0xA9); a read
timeout is fatal (-ETIME); if neither port is usable, fail with -EINVAL. -/
def interface_phase (dual : Nat) (s : St) : Except (Int × St) St :=
  let s := outbCmd 0xAB s
  match read_reg s with
  | (none, s) => .error (-ETIME, s)
  | (some b, s) =>
    let s := if b = 0x00 then { s with fp := 1 } else s
    match (if dual ≠ 0 then
            let s := outbCmd 0xA9 s
            match read_reg s with
            | (none, s) => .error (-ETIME, s)
            | (some b2, s) => .ok (if b2 = 0x00 then { s with sp := 1 } else s)
          else .ok s : Except (Int × St) St) with
    | .error e => .error e
    | .ok s => if s.fp = 0 ∧ s.sp = 0 then .error (-EINVAL, s) else .ok s

/-- Port-enable step (src lines 295-311): re-read the config byte, enable each
usable port (0xAE / 0xA8) and set its interrupt-enable bit, set bit 6, write
the byte to the data register and issue the 0x60 command. -/
def enable_phase (s : St) : Except (Int × St) St :=
  let s := outbCmd 0x20 s
  match read_reg s with
  | (none, s) => .error (-ETIME, s)
  | (some byte, s) =>
    let p := if s.fp ≠ 0 then (setBit 0 byte, outbCmd 0xAE s) else (byte, s)
    let byte := p.1
    let s := p.2
    let q := if s.sp ≠ 0 then (setBit 1 byte, outbCmd 0xA8 s) else (byte, s)
    let byte := q.1
    let s := q.2
    let byte := setBit 6 byte
    let s := outbData byte s
    .ok (outbCmd 0x60 s)

/-- Device-reset step (src lines 313-329), exactly as written: write the reset
command 0xFF to the device on port 1 and read its response, then write 0xFF to
the device on port 2 and read its response — unconditionally, with no check of
first_port, second_port or dual-channel support; any of the four sub-steps
timing out is fatal (-ETIME). -/
def reset_phase (s : St) : Except (Int × St) St :=
  match write_dev1 0xFF s with
  | (false, s) => .error (-ETIME, s)
  | (true, s) =>
    match read_reg s with
    | (none, s) => .error (-ETIME, s)
    | (some _, s) =>
      match write_dev2 0xFF s with
      | (false, s) => .error (-ETIME, s)
      | (true, s) =>
        match read_reg s with
        | (none, s) => .error (-ETIME, s)
        | (some _, s) => .ok s

/-- Device identification on port 1 (src lines 332-394): disable scanning
(0xF5), drain the ack, send identify (0xF2); the first response byte must be
the ack 0xFA; a following 0x00 / 0x03 / 0x04 classifies a mouse; 0xAB makes a
second read whose byte 0x41 / 0xC1 / 0x83 classifies a keyboard; any timeout
or any other byte classifies UNDEFINED (goto first_port_fail).  Returns the
new value of first_port and the state; identification failure never aborts
bring-up. -/
def detect1 (s : St) : Nat × St :=
  match write_dev1 0xF5 s with
  | (false, s) => (UNDEFINED, s)
  | (true, s) =>
    match read_reg s with
    | (none, s) => (UNDEFINED, s)
    | (some _, s) =>
      match write_dev1 0xF2 s with
      | (false, s) => (UNDEFINED, s)
      | (true, s) =>
        match read_reg s with
        | (none, s) => (UNDEFINED, s)
        | (some byte, s) =>
          if byte = 0xFA then
            match read_reg s with
            | (none, s) => (UNDEFINED, s)
            | (some byte, s) =>
              if byte = 0x00 then (MOUSE, s)
              else if byte = 0x03 then (MOUSE, s)
              else if byte = 0x04 then (MOUSE, s)
              else if byte = 0xAB then
                match read_reg s with
                | (none, s) => (UNDEFINED, s)
                | (some byte2, s) =>
                  if byte = 0xAB ∧ (byte2 = 0x41 ∨ byte2 = 0xC1) then (KEYBOARD, s)
                  else if byte = 0xAB ∧ byte2 = 0x83 then (KEYBOARD, s)
                  else (UNDEFINED, s)
              else (UNDEFINED, s)
          else (UNDEFINED, s)

/-- Device identification on port 2 (src lines 398-456): same protocol through
write_dev2, but after an 0xAB response only byte2 = 0x41 or 0xC1 classifies a
keyboard — the 0x83 case of the first-port path is absent, so 0xAB 0x83 on
port 2 classifies UNDEFINED. -/
def detect2 (s : St) : Nat × St :=
  match write_dev2 0xF5 s with
  | (false, s) => (UNDEFINED, s)
  | (true, s) =>
    match read_reg s with
    | (none, s) => (UNDEFINED, s)
    | (some _, s) =>
      match write_dev2 0xF2 s with
      | (false, s) => (UNDEFINED, s)
      | (true, s) =>
        match read_reg s with
        | (none, s) => (UNDEFINED, s)
        | (some byte, s) =>
          if byte = 0xFA then
            match read_reg s with
            | (none, s) => (UNDEFINED, s)
            | (some byte, s) =>
              if byte = 0x00 then (MOUSE, s)
              else if byte = 0x03 then (MOUSE, s)
              else if byte = 0x04 then (MOUSE, s)
              else if byte = 0xAB then
                match read_reg s with
                | (none, s) => (UNDEFINED, s)
                | (some byte2, s) =>
                  if byte2 = 0x41 ∨ byte2 = 0xC1 then (KEYBOARD, s)
                  else (UNDEFINED, s)
              else (UNDEFINED, s)
          else (UNDEFINED, s)

/-- Identification of both ports (src lines 331-457): port 1 is identified
when first_port is set, port 2 when second_port is set; each failure path only
downgrades the classification of the port to UNDEFINED (via the goto labels) and
execution always continues — this phase has no error exit, and the
identification of port 2 runs on whatever state port 1 left behind. -/
def detect_phase (s : St) : St :=
  let s1 := if s.fp ≠ 0 then
              let p := detect1 s
              { p.2 with fp := p.1 }
            else s
  if s1.sp ≠ 0 then
    let p := detect2 s1
    { p.2 with sp := p.1 }
  else s1

/-- Outcomes the kernel gives to the allocation, registration and
interrupt-binding calls of the registration step: whether each
input_allocate_device succeeds, the return value of each
input_register_device (0 = success), and whether each request_irq succeeds. -/
structure RegEnv where
  alloc1 : Bool
  reg1 : Int
  irq1 : Bool
  alloc2 : Bool
  reg2 : Int
  irq12 : Bool
  deriving DecidableEq, Repr

/-- Port-2 half of the registration step (src lines 492-539 with the error
labels of lines 544-572): when second_port is set, allocate dev2, register it,
bind irq 12 and enable scanning (0xF4 + ack); each failure unwinds — through
the goto chains — everything acquired so far, including the irq binding of port 1
and device registration when first_port is set, and returns the error. -/
def register_port2 (env : RegEnv) (s : St) : Int × St :=
  if s.sp ≠ 0 then
    if env.alloc2 = false then
      if s.fp ≠ 0 then (-ENOMEM, pushT Act.unregDev1 (pushT Act.freeIrq1 s))
      else (-ENOMEM, s)
    else
      let s := pushT Act.allocDev2 s
      if env.reg2 ≠ 0 then
        if s.fp ≠ 0 then
          (env.reg2, pushT Act.unregDev1 (pushT Act.freeIrq1 (pushT Act.freeDev2 s)))
        else (env.reg2, pushT Act.freeDev2 s)
      else
        let s := pushT Act.regDev2 s
        if env.irq12 = false then
          if s.fp ≠ 0 then
            (-EBUSY, pushT Act.unregDev1 (pushT Act.freeIrq1 (pushT Act.unregDev2 s)))
          else (-EBUSY, pushT Act.unregDev2 s)
        else
          let s := pushT Act.reqIrq12 s
          match write_dev2 0xF4 s with
          | (false, s) =>
            if s.fp ≠ 0 then
              (-ETIME, pushT Act.unregDev1 (pushT Act.freeIrq1
                (pushT Act.unregDev2 (pushT Act.freeIrq12 s))))
            else (-ETIME, pushT Act.unregDev2 (pushT Act.freeIrq12 s))
          | (true, s) =>
            match read_reg s with
            | (none, s) =>
              if s.fp ≠ 0 then
                (-ETIME, pushT Act.unregDev1 (pushT Act.freeIrq1
                  (pushT Act.unregDev2 (pushT Act.freeIrq12 s))))
              else (-ETIME, pushT Act.unregDev2 (pushT Act.freeIrq12 s))
            | (some _, s) => (0, s)
  else (0, s)

/-- Registration step (src lines 459-542): when first_port is set, allocate
dev1 (failure: return -ENOMEM), register it (failure: free dev1, return the
registration error), bind irq 1 (failure: unregister dev1, return -EBUSY),
enable scanning with 0xF4 and drain the ack (timeout: free irq 1, unregister
dev1, return -ETIME); then the port-2 half runs. -/
def register_phase (env : RegEnv) (s : St) : Int × St :=
  if s.fp ≠ 0 then
    if env.alloc1 = false then (-ENOMEM, s)
    else
      let s := pushT Act.allocDev1 s
      if env.reg1 ≠ 0 then (env.reg1, pushT Act.freeDev1 s)
      else
        let s := pushT Act.regDev1 s
        if env.irq1 = false then (-EBUSY, pushT Act.unregDev1 s)
        else
          let s := pushT Act.reqIrq1 s
          match write_dev1 0xF4 s with
          | (false, s) => (-ETIME, pushT Act.unregDev1 (pushT Act.freeIrq1 s))
          | (true, s) =>
            match read_reg s with
            | (none, s) => (-ETIME, pushT Act.unregDev1 (pushT Act.freeIrq1 s))
            | (some _, s) => register_port2 env s
  else register_port2 env s

/-- init_module (src lines 202-573): disable both ports, then run the phases
in source order: flush, config, self test, dual-channel determination,
interface test, port enable, device reset, identification of both ports, and
registration.  Returns 0 on success or the negated errno, together with the
final state. -/
def init_module (env : RegEnv) (s : St) : Int × St :=
  let s := outbCmd 0xAD s
  let s := outbCmd 0xA7 s
  match flush_phase s with
  | .error r => r
  | .ok s =>
    match config_phase s with
    | .error r => r
    | .ok (dual, s) =>
      match self_test_phase s with
      | .error r => r
      | .ok s =>
        match dual_detect_phase dual s with
        | .error r => r
        | .ok (dual, s) =>
          match interface_phase dual s with
          | .error r => r
          | .ok s =>
            match enable_phase s with
            | .error r => r
            | .ok s =>
              match reset_phase s with
              | .error r => r
              | .ok s => register_phase env (detect_phase s)

/-! ## Claims about the bring-up sequence -/

/-- C3: during identification, an identify response 0xAB followed by 0x41 or
0xC1 classifies the port as KEYBOARD on either port; 0xAB followed by 0x83
classifies KEYBOARD on the first port but UNDEFINED on the second port, whose
path lacks the 0x83 case.  The streams supply: disable-scanning ack a, the
identify ack 0xFA, then 0xAB and the second identity byte. -/
theorem C3_identify_keyboard_responses (a b2 fp sp : Nat) (rs : List (Option Nat))
    (w1 w2 ws1 ws2 : List Bool) (tr : List Act) :
    ((b2 = 0x41 ∨ b2 = 0xC1) →
      (detect1 ⟨[some a, some 0xFA, some 0xAB, some b2] ++ rs,
        true :: true :: w1, ws2, fp, sp, tr⟩).1 = KEYBOARD ∧
      (detect2 ⟨[some a, some 0xFA, some 0xAB, some b2] ++ rs,
        ws1, true :: true :: w2, fp, sp, tr⟩).1 = KEYBOARD) ∧
    (detect1 ⟨[some a, some 0xFA, some 0xAB, some 0x83] ++ rs,
      true :: true :: w1, ws2, fp, sp, tr⟩).1 = KEYBOARD ∧
    (detect2 ⟨[some a, some 0xFA, some 0xAB, some 0x83] ++ rs,
      ws1, true :: true :: w2, fp, sp, tr⟩).1 = UNDEFINED := by
  refine ⟨?_, ?_, ?_⟩
  · rintro (rfl | rfl) <;>
      constructor <;>
      simp [detect1, detect2, write_dev1, write_dev2, read_reg, outbCmd, pushT, KEYBOARD]
  · simp [detect1, write_dev1, read_reg, outbCmd, pushT, KEYBOARD]
  · simp [detect2, write_dev2, read_reg, outbCmd, pushT, UNDEFINED]

/-- Witness for C3 with byte2 = 0x41 and empty stream tails. -/
theorem C3_identify_keyboard_responses_witness :
    ((0x41 : Nat) = 0x41 ∨ (0x41 : Nat) = 0xC1) ∧
    (detect1 ⟨[some 0xFA, some 0xFA, some 0xAB, some 0x41],
      [true, true], [], 0, 0, []⟩).1 = KEYBOARD ∧
    (detect2 ⟨[some 0xFA, some 0xFA, some 0xAB, some 0x83],
      [], [true, true], 0, 0, []⟩).1 = UNDEFINED :=
  ⟨Or.inl rfl,
   ((C3_identify_keyboard_responses 0xFA 0x41 0 0 [] [] [] [] [] []).1
      (Or.inl rfl)).1,
   (C3_identify_keyboard_responses 0xFA 0x41 0 0 [] [] [] [] [] []).2.2⟩

/-- C5: what the config step actually does.  On the failing input where the
config byte reads as 0x20 (bit 5 set) and the read issued after the
data-register write yields 0x00, the step returns dual_channel_test = 0 and
its trace shows the cleared byte written to the data register BEFORE the 0x60
write-config command, with no data byte following that command; bit 5 of the
initially read config byte is 1, which is what the claim says should have been
recorded.  So the code takes the dual-channel candidate from the wrong read
and orders the write-back backwards. -/
theorem C5_config_phase_behavior :
    config_phase ⟨[some 0x20, some 0x00], [], [], 0, 0, []⟩ =
      .ok (0, ⟨[], [], [], 0, 0, [Act.cmd 0x20, Act.data 0x20, Act.cmd 0x60]⟩) ∧
    (if (0x20 : Nat).testBit 5 then 1 else 0) = 1 := by
  constructor
  · rfl
  · decide

/-- C6 counterexample: with first_port = 0 (its interface test failed) the
reset step still writes the reset command 0xFF to the device on port 1
(Act.wdev1 0xFF appears in the trace), and when the write polling of that port
times out the whole bring-up fails fatally with -ETIME — refuting the claim
that a port that failed its interface test is not sent a reset and cannot
cause a fatal timeout in this step. -/
theorem C6_reset_counterexample :
    (reset_phase ⟨[some 0xFA, some 0xFA], [true], [true], 0, 1, []⟩ =
      .ok ⟨[], [], [], 0, 1, [Act.wdev1 0xFF, Act.cmd 0xD4, Act.wdev2 0xFF]⟩ ∧
     Act.wdev1 0xFF ∈ [Act.wdev1 0xFF, Act.cmd 0xD4, Act.wdev2 0xFF]) ∧
    reset_phase ⟨[], [false], [], 0, 1, []⟩ = .error (-ETIME, ⟨[], [], [], 0, 1, []⟩) := by
  exact ⟨⟨rfl, by decide⟩, rfl⟩

/-- C6 amended: in bring-up step 9 the reset command is written to both
devices of both ports unconditionally — the step never consults first_port,
second_port or dual-channel support — and a timeout on any of its four
sub-steps is fatal (-ETIME): the conjuncts cover, in order, the fully
successful run and then a timeout of the port-1 write, of the port-1 response
read, of the port-2 write, and of the port-2 response read. -/
theorem C6_reset_unconditional (fp sp a b : Nat) (rs : List (Option Nat))
    (w1 w2 : List Bool) (tr : List Act) :
    reset_phase ⟨some a :: some b :: rs, true :: w1, true :: w2, fp, sp, tr⟩ =
      .ok ⟨rs, w1, w2, fp, sp, tr ++ [Act.wdev1 0xFF, Act.cmd 0xD4, Act.wdev2 0xFF]⟩ ∧
    reset_phase ⟨rs, false :: w1, w2, fp, sp, tr⟩ =
      .error (-ETIME, ⟨rs, w1, w2, fp, sp, tr⟩) ∧
    reset_phase ⟨none :: rs, true :: w1, w2, fp, sp, tr⟩ =
      .error (-ETIME, ⟨rs, w1, w2, fp, sp, tr ++ [Act.wdev1 0xFF]⟩) ∧
    reset_phase ⟨some a :: rs, true :: w1, false :: w2, fp, sp, tr⟩ =
      .error (-ETIME, ⟨rs, w1, w2, fp, sp, tr ++ [Act.wdev1 0xFF, Act.cmd 0xD4]⟩) ∧
    reset_phase ⟨some a :: none :: rs, true :: w1, true :: w2, fp, sp, tr⟩ =
      .error (-ETIME,
        ⟨rs, w1, w2, fp, sp, tr ++ [Act.wdev1 0xFF, Act.cmd 0xD4, Act.wdev2 0xFF]⟩) := by
  refine ⟨?_, ?_, ?_, ?_, ?_⟩ <;>
    simp [reset_phase, write_dev1, write_dev2, read_reg, outbCmd, pushT, List.append_assoc]

/-- Resource-acquisition actions of the registration step. -/
def isAcquire : Act → Bool
  | .allocDev1 | .regDev1 | .reqIrq1 | .allocDev2 | .regDev2 | .reqIrq12 => true
  | _ => false

/-- Resource-release actions of the registration step. -/
def isRelease : Act → Bool
  | .freeDev1 | .unregDev1 | .freeIrq1 | .freeDev2 | .unregDev2 | .freeIrq12 => true
  | _ => false

/-- C4: when port 1 completes identification (fp ≠ 0), sink registration and
interrupt binding and its scanning is enabled, and the sink registration of port 2
then fails (reg2 ≠ 0), the registration step returns that registration error
and, before returning, releases everything in strict reverse order of
acquisition: the acquisitions were dev1 allocated, dev1 registered, irq 1
bound, dev2 allocated, and the releases are dev2 freed first (most recent,
never registered, so input_free_device), then irq 1 freed, then dev1
unregistered (input_unregister_device, which releases the registered device
and with it its allocation).  The last two conjuncts extract the acquisition
and release subsequences of the trace delta of the step. -/
theorem C4_rollback_port2_registration_failure (env : RegEnv) (a fp sp : Nat)
    (rs : List (Option Nat)) (w1 w2 : List Bool) (tr : List Act)
    (hfp : fp ≠ 0) (hsp : sp ≠ 0) (ha1 : env.alloc1 = true) (hr1 : env.reg1 = 0)
    (hi1 : env.irq1 = true) (ha2 : env.alloc2 = true) (hr2 : env.reg2 ≠ 0) :
    register_phase env ⟨some a :: rs, true :: w1, w2, fp, sp, tr⟩ =
      (env.reg2, ⟨rs, w1, w2, fp, sp, tr ++
        [Act.allocDev1, Act.regDev1, Act.reqIrq1, Act.wdev1 0xF4,
         Act.allocDev2, Act.freeDev2, Act.freeIrq1, Act.unregDev1]⟩) ∧
    List.filter (fun x => isAcquire x)
        [Act.allocDev1, Act.regDev1, Act.reqIrq1, Act.wdev1 0xF4,
         Act.allocDev2, Act.freeDev2, Act.freeIrq1, Act.unregDev1] =
      [Act.allocDev1, Act.regDev1, Act.reqIrq1, Act.allocDev2] ∧
    List.filter (fun x => isRelease x)
        [Act.allocDev1, Act.regDev1, Act.reqIrq1, Act.wdev1 0xF4,
         Act.allocDev2, Act.freeDev2, Act.freeIrq1, Act.unregDev1] =
      [Act.freeDev2, Act.freeIrq1, Act.unregDev1] := by
  refine ⟨?_, by decide, by decide⟩
  simp [register_phase, register_port2, write_dev1, read_reg, pushT,
    hfp, hsp, ha1, hr1, hi1, ha2, hr2, List.append_assoc]

/-- Witness for C4: concrete environment where registering dev2 returns -5
after port 1 is fully set up. -/
theorem C4_rollback_port2_registration_failure_witness :
    register_phase ⟨true, 0, true, true, -5, true⟩ ⟨[some 0xFA], [true], [], 1, 1, []⟩ =
      (-5, ⟨[], [], [], 1, 1,
        [Act.allocDev1, Act.regDev1, Act.reqIrq1, Act.wdev1 0xF4,
         Act.allocDev2, Act.freeDev2, Act.freeIrq1, Act.unregDev1]⟩) :=
  (C4_rollback_port2_registration_failure ⟨true, 0, true, true, -5, true⟩ 0xFA 1 1 [] [] [] []
    (by decide) (by decide) rfl rfl rfl rfl (by decide)).1

/-- C7: every identification sub-step failure — the disable-scanning write
timing out, the first read timing out, the identify write timing out, the ack
read timing out, an ack byte other than 0xFA, the identity read timing out, an
identity byte outside {0x00, 0x03, 0x04, 0xAB}, the second identity read
timing out, or an unrecognized second identity byte — classifies that port
UNDEFINED, on port 1 and on port 2 alike (conjuncts one to nine pair the two
ports).  Identification never aborts bring-up: detect_phase is a total
function into St with no error outcome, and the last conjunct shows that
whatever detect1 produced for port 1, the classification of port 2 is still
computed by running detect2 on the residual state. -/
theorem C7_identification_failure_isolated :
    (∀ rs ws1 ws2 w1 w2 fp sp tr,
      (detect1 ⟨rs, false :: w1, ws2, fp, sp, tr⟩).1 = UNDEFINED ∧
      (detect2 ⟨rs, ws1, false :: w2, fp, sp, tr⟩).1 = UNDEFINED) ∧
    (∀ rs ws1 ws2 w1 w2 fp sp tr,
      (detect1 ⟨none :: rs, true :: w1, ws2, fp, sp, tr⟩).1 = UNDEFINED ∧
      (detect2 ⟨none :: rs, ws1, true :: w2, fp, sp, tr⟩).1 = UNDEFINED) ∧
    (∀ a rs ws1 ws2 w1 w2 fp sp tr,
      (detect1 ⟨some a :: rs, true :: false :: w1, ws2, fp, sp, tr⟩).1 = UNDEFINED ∧
      (detect2 ⟨some a :: rs, ws1, true :: false :: w2, fp, sp, tr⟩).1 = UNDEFINED) ∧
    (∀ a rs ws1 ws2 w1 w2 fp sp tr,
      (detect1 ⟨some a :: none :: rs, true :: true :: w1, ws2, fp, sp, tr⟩).1 = UNDEFINED ∧
      (detect2 ⟨some a :: none :: rs, ws1, true :: true :: w2, fp, sp, tr⟩).1 = UNDEFINED) ∧
    (∀ a b rs ws1 ws2 w1 w2 fp sp tr, b ≠ 0xFA →
      (detect1 ⟨some a :: some b :: rs, true :: true :: w1, ws2, fp, sp, tr⟩).1 = UNDEFINED ∧
      (detect2 ⟨some a :: some b :: rs, ws1, true :: true :: w2, fp, sp, tr⟩).1 = UNDEFINED) ∧
    (∀ a rs ws1 ws2 w1 w2 fp sp tr,
      (detect1 ⟨some a :: some 0xFA :: none :: rs, true :: true :: w1, ws2, fp, sp, tr⟩).1
        = UNDEFINED ∧
      (detect2 ⟨some a :: some 0xFA :: none :: rs, ws1, true :: true :: w2, fp, sp, tr⟩).1
        = UNDEFINED) ∧
    (∀ a b rs ws1 ws2 w1 w2 fp sp tr,
      b ≠ 0x00 → b ≠ 0x03 → b ≠ 0x04 → b ≠ 0xAB →
      (detect1 ⟨some a :: some 0xFA :: some b :: rs, true :: true :: w1, ws2, fp, sp, tr⟩).1
        = UNDEFINED ∧
      (detect2 ⟨some a :: some 0xFA :: some b :: rs, ws1, true :: true :: w2, fp, sp, tr⟩).1
        = UNDEFINED) ∧
    (∀ a rs ws1 ws2 w1 w2 fp sp tr,
      (detect1 ⟨some a :: some 0xFA :: some 0xAB :: none :: rs,
        true :: true :: w1, ws2, fp, sp, tr⟩).1 = UNDEFINED ∧
      (detect2 ⟨some a :: some 0xFA :: some 0xAB :: none :: rs,
        ws1, true :: true :: w2, fp, sp, tr⟩).1 = UNDEFINED) ∧
    (∀ a b2 rs ws1 ws2 w1 w2 fp sp tr,
      (b2 ≠ 0x41 → b2 ≠ 0xC1 → b2 ≠ 0x83 →
        (detect1 ⟨some a :: some 0xFA :: some 0xAB :: some b2 :: rs,
          true :: true :: w1, ws2, fp, sp, tr⟩).1 = UNDEFINED) ∧
      (b2 ≠ 0x41 → b2 ≠ 0xC1 →
        (detect2 ⟨some a :: some 0xFA :: some 0xAB :: some b2 :: rs,
          ws1, true :: true :: w2, fp, sp, tr⟩).1 = UNDEFINED)) ∧
    (∀ (s : St) (c1 : Nat) (s1 : St), detect1 s = (c1, s1) → s.fp ≠ 0 → s1.sp ≠ 0 →
      detect_phase s =
        { (detect2 { s1 with fp := c1 }).2 with sp := (detect2 { s1 with fp := c1 }).1 }) := by
  refine ⟨?_, ?_, ?_, ?_, ?_, ?_, ?_, ?_, ?_, ?_⟩
  · intro rs ws1 ws2 w1 w2 fp sp tr
    constructor <;> simp [detect1, detect2, write_dev1, write_dev2, read_reg, outbCmd, pushT]
  · intro rs ws1 ws2 w1 w2 fp sp tr
    constructor <;> simp [detect1, detect2, write_dev1, write_dev2, read_reg, outbCmd, pushT]
  · intro a rs ws1 ws2 w1 w2 fp sp tr
    constructor <;> simp [detect1, detect2, write_dev1, write_dev2, read_reg, outbCmd, pushT]
  · intro a rs ws1 ws2 w1 w2 fp sp tr
    constructor <;> simp [detect1, detect2, write_dev1, write_dev2, read_reg, outbCmd, pushT]
  · intro a b rs ws1 ws2 w1 w2 fp sp tr hb
    constructor <;> simp [detect1, detect2, write_dev1, write_dev2, read_reg, outbCmd, pushT, hb]
  · intro a rs ws1 ws2 w1 w2 fp sp tr
    constructor <;> simp [detect1, detect2, write_dev1, write_dev2, read_reg, outbCmd, pushT]
  · intro a b rs ws1 ws2 w1 w2 fp sp tr h0 h3 h4 hAB
    constructor <;>
      simp [detect1, detect2, write_dev1, write_dev2, read_reg, outbCmd, pushT, h0, h3, h4, hAB]
  · intro a rs ws1 ws2 w1 w2 fp sp tr
    constructor <;> simp [detect1, detect2, write_dev1, write_dev2, read_reg, outbCmd, pushT]
  · intro a b2 rs ws1 ws2 w1 w2 fp sp tr
    constructor
    · intro h41 hC1 h83
      simp [detect1, write_dev1, read_reg, outbCmd, pushT, h41, hC1, h83]
    · intro h41 hC1
      simp [detect2, write_dev2, read_reg, outbCmd, pushT, h41, hC1]
  · intro s c1 s1 h hfp hsp
    simp [detect_phase, h, hfp, hsp]

/-- Witness for C7: the identify ack comes back 0x55 instead of 0xFA on
port 1, which classifies it UNDEFINED. -/
theorem C7_identification_failure_isolated_witness :
    (0x55 : Nat) ≠ 0xFA ∧
    (detect1 ⟨[some 0xFA, some 0x55], [true, true], [], 1, 1, []⟩).1 = UNDEFINED :=
  ⟨by decide,
   (C7_identification_failure_isolated.2.2.2.2.1 0xFA 0x55 [] [] [] [] [] 1 1 []
      (by decide)).1⟩

/-- C8: the interface test marks a port usable exactly on response 0x00; a
nonzero response leaves the port disabled without aborting (second conjunct:
port 1 fails but bring-up proceeds with port 2 usable); port 2 is tested only
when dual-channel is supported (first conjunct consumes a single response and
issues only the 0xAB command, leaving second_port 0); and when no port ends up
usable the phase fails with the configuration error -EINVAL (third and fourth
conjuncts), never touching the test of port 2 when dual is unsupported. -/
theorem C8_interface_test (b b2 dual : Nat) (rs : List (Option Nat))
    (w1 w2 : List Bool) (tr : List Act) :
    interface_phase 0 ⟨some 0x00 :: rs, w1, w2, 0, 0, tr⟩ =
      .ok ⟨rs, w1, w2, 1, 0, tr ++ [Act.cmd 0xAB]⟩ ∧
    (dual ≠ 0 → b ≠ 0 →
      interface_phase dual ⟨some b :: some 0x00 :: rs, w1, w2, 0, 0, tr⟩ =
        .ok ⟨rs, w1, w2, 0, 1, tr ++ [Act.cmd 0xAB, Act.cmd 0xA9]⟩) ∧
    (dual ≠ 0 → b ≠ 0 → b2 ≠ 0 →
      interface_phase dual ⟨some b :: some b2 :: rs, w1, w2, 0, 0, tr⟩ =
        .error (-EINVAL, ⟨rs, w1, w2, 0, 0, tr ++ [Act.cmd 0xAB, Act.cmd 0xA9]⟩)) ∧
    (b ≠ 0 →
      interface_phase 0 ⟨some b :: rs, w1, w2, 0, 0, tr⟩ =
        .error (-EINVAL, ⟨rs, w1, w2, 0, 0, tr ++ [Act.cmd 0xAB]⟩)) := by
  refine ⟨?_, ?_, ?_, ?_⟩
  · simp [interface_phase, read_reg, outbCmd, pushT]
  · intro hd hb
    simp [interface_phase, read_reg, outbCmd, pushT, hd, hb, List.append_assoc]
  · intro hd hb hb2
    simp [interface_phase, read_reg, outbCmd, pushT, hd, hb, hb2, List.append_assoc]
  · intro hb
    simp [interface_phase, read_reg, outbCmd, pushT, hb]

/-- Witness for C8: port 1 answers 0x05 (failure), port 2 answers 0x00
(usable) with dual-channel supported. -/
theorem C8_interface_test_witness :
    ((1 : Nat) ≠ 0 ∧ (0x05 : Nat) ≠ 0) ∧
    interface_phase 1 ⟨[some 0x05, some 0x00], [], [], 0, 0, []⟩ =
      .ok ⟨[], [], [], 0, 1, [Act.cmd 0xAB, Act.cmd 0xA9]⟩ :=
  ⟨by decide,
   (C8_interface_test 0x05 0 1 [] [] [] []).2.1 (by decide) (by decide)⟩

end I8042
